import Mathlib

/-!
Verification development for the obsidian-chevereto-plugin repository
(src/main.ts). The single source file defines an `ImageUploadService`
with an `uploadImage` method that builds a multipart/form-data POST
request and parses the JSON response, and a `PasteUploadPlugin` whose
`paste_handle` intercepts paste events, uploads image-typed clipboard
items sequentially and inserts the returned URL as a Markdown image
link via `insert_image`.

The embedding below models:
  - JavaScript runtime values produced by `JSON.parse` (`JsVal`), with
    property access (`getProp`, which throws a TypeError on `null` and
    `undefined` receivers) and the loose-equality test `x == 200` used
    at src/main.ts line 69 (`looseEq200`);
  - the byte-level multipart payload and headers built at lines 37-56
    (`payload`, `requestHeaders`), with bytes as `Nat` values below 256
    and UTF-8 encoding made explicit (`utf8Bytes`);
  - the settlement of the promise returned by `uploadImage`
    (lines 58-89) as a function `uploadImage` from the transport-level
    result of the HTTPS exchange to an `UploadOutcome` (resolved value
    or rejection message); `JSON.parse` is passed in as an oracle
    `parse : String → Except String JsVal` standing for the host
    runtime's parser (error value = the stringified thrown exception);
  - `insert_image` (lines 144-154) and `paste_handle` (lines 124-141)
    over an explicit workspace state, recording performed uploads,
    shown notices, `preventDefault` calls and an eventual rejection
    propagating out of the async handler.

Modelling notes, all harmless to the claims checked here: JSON numbers
are modelled as integers (every status code in play is integral);
JavaScript's `ToNumber` on strings is modelled for trimmed decimal
integer literals (fractional or exotic literals map to NaN); TypeError
messages are modelled without V8's quoted property name; editor cursor
positions are a single character offset and the host primitive's
post-insertion cursor policy is left unspecified, as no claim depends
on it.
-/

namespace Chevereto

/-- JavaScript values as producible by `JSON.parse`: `null`, booleans,
(integral) numbers, strings, objects and arrays, plus `undefined`,
which arises from accessing an absent property. -/
inductive JsVal where
  | undefined
  | null
  | bool (b : Bool)
  | num (n : Int)
  | str (s : String)
  | obj (fields : List (String × JsVal))
  | arr (elems : List JsVal)


/-- Runtime values a promise may be fulfilled with: either a
JSON-derived value or an `Error` object (as in the declared return
type `Promise<string | Error>` of `uploadImage`). -/
inductive RtVal where
  | js (v : JsVal)
  | errorObj (msg : String)


/-- Whether a runtime value is an `Error` object, i.e. the
`image_url instanceof Error` test at src/main.ts line 133. -/
def RtVal.isErrorObj : RtVal → Bool
  | .js _ => false
  | .errorObj _ => true

/-- Settlement of the promise returned by `uploadImage`: fulfilled
with a runtime value, or rejected with an `Error` carrying a message. -/
inductive UploadOutcome where
  | resolved (v : RtVal)
  | rejected (msg : String)


/-- Whether an upload outcome is a rejection. -/
def UploadOutcome.isRejected : UploadOutcome → Bool
  | .resolved _ => false
  | .rejected _ => true

/-- JavaScript property access `v.k`: throws a TypeError on `null` or
`undefined` receivers, yields the field (or `undefined` when absent)
on objects, and `undefined` on other primitives and arrays (none of
the accessed keys is an array index or built-in). The error string is
the stringified exception, fed into string concatenation by the
`catch` block. -/
def getProp : JsVal → String → Except String JsVal
  | .undefined, _ => .error "TypeError: Cannot read properties of undefined"
  | .null, _ => .error "TypeError: Cannot read properties of null"
  | .obj fields, k => .ok ((fields.lookup k).getD .undefined)
  | .bool _, _ => .ok .undefined
  | .num _, _ => .ok .undefined
  | .str _, _ => .ok .undefined
  | .arr _, _ => .ok .undefined

/-- ASCII whitespace characters stripped by JavaScript `ToNumber`
(the full Unicode whitespace set is not modelled; no claim uses it). -/
def isJsSpace (c : Char) : Bool :=
  c.toNat = 32 || c.toNat = 9 || c.toNat = 10 || c.toNat = 13 ||
    c.toNat = 11 || c.toNat = 12

/-- Value of a decimal digit character, if it is one. -/
def digitVal (c : Char) : Option Nat :=
  if 48 ≤ c.toNat ∧ c.toNat ≤ 57 then some (c.toNat - 48) else none

/-- Value of a non-empty run of decimal digits. -/
def decDigits : List Char → Option Nat
  | [] => none
  | cs => cs.foldl (fun acc c => match acc, digitVal c with
      | some n, some d => some (n * 10 + d)
      | _, _ => none) (some 0)

/-- Value of an optionally signed decimal integer literal. -/
def decInt : List Char → Option Int
  | '-' :: rest => (decDigits rest).map (fun n => -(n : Int))
  | '+' :: rest => (decDigits rest).map (fun n => (n : Int))
  | cs => (decDigits cs).map (fun n => (n : Int))

/-- JavaScript `ToNumber` on a string: trimmed; empty means 0; a
decimal integer literal means its value; anything else is NaN,
modelled as `none`. (Fractional, hex and infinity literals are not
modelled; no claim involves them.) -/
def jsToNumber (s : String) : Option Int :=
  let t := ((s.data.dropWhile isJsSpace).reverse.dropWhile isJsSpace).reverse
  if t.isEmpty then some 0 else decInt t

mutual

/-- String conversion JavaScript applies to an element inside
`Array.prototype.join` (hence inside `toString` of an array):
`null` and `undefined` become empty, other values convert as usual. -/
def jsJoinDisplay : JsVal → String
  | .undefined => ""
  | .null => ""
  | .bool b => if b then "true" else "false"
  | .num n => toString n
  | .str s => s
  | .obj _ => "[object Object]"
  | .arr xs => jsJoinList xs

/-- Comma-joined string conversion of an array's elements. -/
def jsJoinList : List JsVal → String
  | [] => ""
  | [x] => jsJoinDisplay x
  | x :: xs => jsJoinDisplay x ++ "," ++ jsJoinList xs

end

/-- The loose-equality test `x == 200` from src/main.ts line 69
(`json.status_code == 200`), following JavaScript abstract equality:
numbers compare numerically, strings are converted with `ToNumber`,
booleans via 0/1, `null` and `undefined` are not loosely equal to a
number, plain objects convert to the string `[object Object]` (NaN)
and arrays to their comma-joined string. -/
def looseEq200 : JsVal → Bool
  | .undefined => false
  | .null => false
  | .bool b => (if b then (1 : Int) else 0) = 200
  | .num n => n = 200
  | .str s => jsToNumber s = some 200
  | .obj _ => jsToNumber "[object Object]" = some 200
  | .arr xs => jsToNumber (jsJoinList xs) = some 200

/-- String conversion `String(v)` as performed by the template literal
in `insert_image` and by string concatenation: `undefined` and `null`
print literally, other values convert as usual. -/
def jsToDisplay : JsVal → String
  | .undefined => "undefined"
  | .null => "null"
  | .bool b => if b then "true" else "false"
  | .num n => toString n
  | .str s => s
  | .obj _ => "[object Object]"
  | .arr xs => jsJoinList xs

/-- String conversion of a runtime value (an `Error` object stringifies
as `Error: <message>`). -/
def jsTemplateString : RtVal → String
  | .js v => jsToDisplay v
  | .errorObj m => "Error: " ++ m

/-- Outcome of the HTTPS exchange as seen by the callbacks in
`uploadImage`: either a complete response (status code and accumulated
body string) or a transport-level error delivered to the request's
error handler, stringified. -/
inductive TransportResult where
  | response (statusCode : Nat) (body : String)
  | transportError (e : String)


/-- Settlement of the promise returned by
`ImageUploadService.uploadImage` (src/main.ts lines 58-89), as a
function of the transport result. `parse` is the host runtime's
`JSON.parse`, an oracle returning either the parsed value or the
stringified thrown exception. On status 200 the code runs
`JSON.parse`, tests `json.status_code == 200`, and on success resolves
`json.image.url`; every exception inside the `try` block (parse
failure or a TypeError from a property access) is caught and rejected
as `Error parsing response: ...`; a mismatched status field rejects
with the raw body; a non-200 HTTP status rejects with the status code;
a transport error rejects with the stringified error. -/
def uploadImage (parse : String → Except String JsVal) :
    TransportResult → UploadOutcome
  | .transportError e => .rejected ("Request error: " ++ e)
  | .response statusCode body =>
    if statusCode = 200 then
      match parse body with
      | .error e => .rejected ("Error parsing response: " ++ e)
      | .ok json =>
        match getProp json "status_code" with
        | .error e => .rejected ("Error parsing response: " ++ e)
        | .ok sc =>
          if looseEq200 sc then
            match getProp json "image" with
            | .error e => .rejected ("Error parsing response: " ++ e)
            | .ok image =>
              match getProp image "url" with
              | .error e => .rejected ("Error parsing response: " ++ e)
              | .ok u => .resolved (.js u)
          else .rejected ("Upload failed: " ++ body)
    else .rejected ("Upload failed with status: " ++ toString statusCode)

/-! Request construction (src/main.ts lines 33-56). -/

/-- UTF-8 encoding of a single character, bytes as `Nat` values. -/
def encodeCharUtf8 (c : Char) : List Nat :=
  let n := c.toNat
  if n < 0x80 then [n]
  else if n < 0x800 then
    [0xC0 ||| (n >>> 6), 0x80 ||| (n &&& 0x3F)]
  else if n < 0x10000 then
    [0xE0 ||| (n >>> 12), 0x80 ||| ((n >>> 6) &&& 0x3F), 0x80 ||| (n &&& 0x3F)]
  else
    [0xF0 ||| (n >>> 18), 0x80 ||| ((n >>> 12) &&& 0x3F),
     0x80 ||| ((n >>> 6) &&& 0x3F), 0x80 ||| (n &&& 0x3F)]

/-- UTF-8 encoding of a character list. -/
def utf8List : List Char → List Nat
  | [] => []
  | c :: cs => encodeCharUtf8 c ++ utf8List cs

/-- UTF-8 encoding of a string, as performed by `Buffer.from` on the
string pieces of the multipart payload. -/
def utf8Bytes (s : String) : List Nat :=
  utf8List s.data

/-- The fixed multipart boundary from src/main.ts line 37. -/
def boundary : String := "----WebKitFormBoundary7MA4YWxkTrZu0gW"

/-- An in-memory image blob handed to `uploadImage`: raw bytes plus
the `name` and `type` of the `File` object. -/
structure ImageBlob where
  bytes : List Nat
  name : String
  type : String

/-- The string prefix of the multipart payload (first `Buffer.from`
argument at src/main.ts line 40): opening boundary line,
Content-Disposition line naming the single `source` part with the
blob's filename, and Content-Type line with the blob's mime type. -/
def partHeaderStr (b : ImageBlob) : String :=
  "--" ++ boundary ++ "\r\nContent-Disposition: form-data; name=\"source\"; filename=\"" ++
    b.name ++ "\"\r\nContent-Type: " ++ b.type ++ "\r\n\r\n"

/-- The closing boundary marker (third `Buffer.from` argument at
src/main.ts line 42). -/
def closingStr : String := "\r\n--" ++ boundary ++ "--\r\n"

/-- The full multipart payload, `Buffer.concat` of the encoded part
header, the blob's raw bytes, and the encoded closing marker
(src/main.ts lines 39-43). -/
def payload (b : ImageBlob) : List Nat :=
  utf8Bytes (partHeaderStr b) ++ b.bytes ++ utf8Bytes closingStr

/-- The three request headers set at src/main.ts lines 51-55. -/
structure RequestHeaders where
  contentType : String
  contentLength : Nat
  xApiKey : String

/-- Headers of the constructed request: the multipart content type with
the fixed boundary, the payload's byte length, and the configured API
token in `X-API-Key`. -/
def requestHeaders (apiToken : String) (b : ImageBlob) : RequestHeaders :=
  { contentType := "multipart/form-data; boundary=" ++ boundary
  , contentLength := (payload b).length
  , xApiKey := apiToken }

/-- Modelled from the spec (section 6, External Interfaces): the
expected request body, "one multipart part, field name `source`,
filename and content-type taken from the clipboard image, raw binary
payload, followed by the closing boundary marker", with the boundary
declared in the Content-Type header. Used as the spec-side reference
against which the constructed `payload` is compared. -/
def specSinglePartBody (bnd filename mime : String) (bytes : List Nat) : List Nat :=
  utf8Bytes ("--" ++ bnd ++ "\r\n" ++
      "Content-Disposition: form-data; name=\"source\"; filename=\"" ++ filename ++ "\"\r\n" ++
      "Content-Type: " ++ mime ++ "\r\n\r\n") ++
    bytes ++
    utf8Bytes ("\r\n--" ++ bnd ++ "--\r\n")

/-! The paste handler and insertion (src/main.ts lines 124-154). -/

/-- Editor state of a Markdown view: document text and cursor, the
cursor as a character offset. Insertion at the cursor models
`editor.replaceRange(text, cursor)`; the host primitive's
post-insertion cursor placement is not constrained by any claim, so
the model leaves the cursor where it was. -/
structure EditorState where
  doc : String
  cursor : Nat

/-- A workspace leaf's view: a Markdown view with its editor, or some
other view type (failing the `instanceof MarkdownView` test). -/
inductive ViewKind where
  | markdownView (ed : EditorState)
  | otherView

/-- The workspace as read by `insert_image`: the active leaf, if any. -/
structure Workspace where
  activeLeaf : Option ViewKind

/-- Insertion of `text` at the editor's cursor via `replaceRange`. -/
def insertAtCursor (ed : EditorState) (text : String) : EditorState :=
  { ed with doc := ed.doc.take ed.cursor ++ text ++ ed.doc.drop ed.cursor }

/-- The notice text shown by `insert_image` when no Markdown view is
active (src/main.ts line 152). -/
def noViewNotice : String := "Failed to insert image, no active Markdown view."

/-- `PasteUploadPlugin.insert_image` (src/main.ts lines 144-154):
if the active leaf holds a Markdown view, insert the Markdown image
link built by the template literal at the cursor; otherwise show an
error notice and touch no document. Returns the updated workspace and
the notices shown. -/
def insert_image (ws : Workspace) (image_url : String) : Workspace × List String :=
  match ws.activeLeaf with
  | some (.markdownView ed) =>
    ({ activeLeaf := some (.markdownView (insertAtCursor ed ("![](" ++ image_url ++ ")"))) }, [])
  | _ => (ws, [noViewNotice])

/-- JavaScript `String.prototype.startsWith`, over the characters. -/
def strStartsWith (s p : String) : Bool :=
  p.data.isPrefixOf s.data

/-- One clipboard item: its declared MIME `type` and, for image items,
the `File` returned by `getAsFile()` (never read for non-image items). -/
structure ClipboardItem where
  type : String
  file : ImageBlob

/-- The notice text shown by the `instanceof Error` branch of
`paste_handle` (src/main.ts line 134). -/
def uploadFailNotice : String := "Failed to upload image"

/-- Observable result of one run of the async `paste_handle`: the
blobs handed to `uploadImage` in order, whether `preventDefault` was
called, the final workspace, the notices shown, and the message of a
rejection propagating out of the handler (the loop stops there), if
any. -/
structure PasteRun where
  uploads : List ImageBlob
  prevented : Bool
  ws : Workspace
  notices : List String
  rejection : Option String

/-- `PasteUploadPlugin.paste_handle` (src/main.ts lines 124-141) over
a snapshot of clipboard items, with the upload service abstracted as
`upload : ImageBlob → UploadOutcome` (the settlement of each awaited
`uploadImage` call). Image-typed items call `preventDefault`, are
uploaded one at a time, and on fulfilment the result goes to
`insert_image` after the `instanceof Error` test; an awaited rejection
is uncaught, so it aborts the loop and rejects the handler's promise
with no notice of its own. Non-image items are skipped. -/
def paste_handle (upload : ImageBlob → UploadOutcome) (ws : Workspace) :
    List ClipboardItem → PasteRun
  | [] => { uploads := [], prevented := false, ws := ws, notices := [], rejection := none }
  | item :: rest =>
    if strStartsWith item.type "image" then
      match upload item.file with
      | .resolved v =>
        if v.isErrorObj then
          let r := paste_handle upload ws rest
          { r with uploads := item.file :: r.uploads
                 , prevented := true
                 , notices := uploadFailNotice :: r.notices }
        else
          let step := insert_image ws (jsTemplateString v)
          let r := paste_handle upload step.1 rest
          { r with uploads := item.file :: r.uploads
                 , prevented := true
                 , notices := step.2 ++ r.notices }
      | .rejected msg =>
        { uploads := [item.file], prevented := true, ws := ws
        , notices := [], rejection := some msg }
    else
      paste_handle upload ws rest

/-! Concrete inputs used by witnesses and counterexamples. -/

/-- Parsed value of the mocked success body from the spec. -/
def demoOkJson : JsVal :=
  .obj [("status_code", .num 200), ("image", .obj [("url", .str "https://x/y.png")])]

/-- The mocked success body from the spec,
`{"status_code":200,"image":{"url":"https://x/y.png"}}`. -/
def demoOkBody : String :=
  "\x7b\"status_code\":200,\"image\":\x7b\"url\":\"https://x/y.png\"\x7d\x7d"

/-- Parse oracle mapping every body to the mocked success value. -/
def demoOkParse : String → Except String JsVal := fun _ => .ok demoOkJson

/-- A 200 body whose `image` object lacks the `url` field,
`{"status_code":200,"image":{}}`. -/
def noUrlBody : String := "\x7b\"status_code\":200,\"image\":\x7b\x7d\x7d"

/-- Parse oracle for `noUrlBody`: a well-formed object with an empty
`image` object. -/
def noUrlParse : String → Except String JsVal :=
  fun _ => .ok (.obj [("status_code", .num 200), ("image", .obj [])])

/-- A 200 body whose status field is 500, `{"status_code":500}`. -/
def body500 : String := "\x7b\"status_code\":500\x7d"

/-- Parse oracle for `body500`. -/
def parse500 : String → Except String JsVal :=
  fun _ => .ok (.obj [("status_code", .num 500)])

/-- Parse oracle that always fails, stringifying the thrown
SyntaxError as older V8 runtimes do. -/
def failParse : String → Except String JsVal :=
  fun _ => .error "SyntaxError: Unexpected token"

/-- Parse oracle for the body `null`, which is valid JSON parsing to
the JavaScript value `null`. -/
def nullParse : String → Except String JsVal := fun _ => .ok .null

/-- Parsed value of a 200 body whose status field is the string
`"200"`. -/
def strStatusJson : JsVal :=
  .obj [("status_code", .str "200"), ("image", .obj [("url", .str "https://x/y.png")])]

/-- The corresponding body,
`{"status_code":"200","image":{"url":"https://x/y.png"}}`. -/
def strStatusBody : String :=
  "\x7b\"status_code\":\"200\",\"image\":\x7b\"url\":\"https://x/y.png\"\x7d\x7d"

/-- Parse oracle for `strStatusBody`. -/
def strStatusParse : String → Except String JsVal := fun _ => .ok strStatusJson

/-- A pasted PNG blob. -/
def pngBlob : ImageBlob := { bytes := [137, 80, 78, 71], name := "a.png", type := "image/png" }

/-- The corresponding image-typed clipboard item. -/
def pngItem : ClipboardItem := { type := "image/png", file := pngBlob }

/-- A workspace whose active leaf is a Markdown view on the document
`hello` with the cursor after the second character. -/
def mdWorkspace : Workspace :=
  { activeLeaf := some (.markdownView { doc := "hello", cursor := 2 }) }

/-- Upload service whose HTTPS request fails at the transport level. -/
def transportFailUpload : ImageBlob → UploadOutcome :=
  fun _ => uploadImage failParse (.transportError "Error: connect ECONNREFUSED")

/-- Network oracle that fails every exchange at the transport level. -/
def boomNet : ImageBlob → TransportResult := fun _ => .transportError "Error: boom"

/-- Second pasted image blob for the two-image scenario. -/
def pngBlobB : ImageBlob := { bytes := [66], name := "b.png", type := "image/png" }

/-- A text-typed clipboard item; its `file` field is a placeholder the
handler never reads (`getAsFile` is only called on image items). -/
def textItem : ClipboardItem :=
  { type := "text/plain", file := { bytes := [], name := "", type := "" } }

/-- Clipboard payload of the C4 scenario: two image items, then one
text item. -/
def twoImagesOneText : List ClipboardItem :=
  [pngItem, { type := "image/png", file := pngBlobB }, textItem]

/-- Success body for the first image of the C4 scenario. -/
def bodyA : String :=
  "\x7b\"status_code\":200,\"image\":\x7b\"url\":\"https://a/1.png\"\x7d\x7d"

/-- Parse oracle of the C4 scenario: `bodyA` parses to its value, any
other body fails to parse. -/
def scenarioParse : String → Except String JsVal := fun s =>
  if s = bodyA then
    .ok (.obj [("status_code", .num 200), ("image", .obj [("url", .str "https://a/1.png")])])
  else .error "SyntaxError: Unexpected token"

/-- Network oracle of the C4 scenario: the first blob's exchange
succeeds with `bodyA`, the second is refused with HTTP 403. -/
def scenarioNet : ImageBlob → TransportResult := fun b =>
  if b.name = "a.png" then .response 200 bodyA else .response 403 "denied"

/-- Upload service of the C4 scenario. -/
def scenarioUpload : ImageBlob → UploadOutcome :=
  fun b => uploadImage scenarioParse (scenarioNet b)

/-- A workspace with an empty Markdown document. -/
def emptyMdWorkspace : Workspace :=
  { activeLeaf := some (.markdownView { doc := "", cursor := 0 }) }

/-! Helper lemmas. -/

set_option maxRecDepth 8192

/-- UTF-8 encoding distributes over character-list concatenation. -/
theorem utf8List_append (a b : List Char) :
    utf8List (a ++ b) = utf8List a ++ utf8List b := by
  induction a with
  | nil => rfl
  | cons c cs ih => simp [utf8List, ih]

/-- UTF-8 encoding distributes over string concatenation. -/
theorem utf8Bytes_append (s t : String) :
    utf8Bytes (s ++ t) = utf8Bytes s ++ utf8Bytes t := by
  rw [utf8Bytes, utf8Bytes, utf8Bytes, String.data_append, utf8List_append]

/-- Inversion: a fulfilled `uploadImage` promise always carries a
JSON-derived value, since the single `resolve` site passes
`json.image.url`. -/
theorem uploadImage_resolved_is_js (parse : String → Except String JsVal)
    (tr : TransportResult) (v : RtVal)
    (h : uploadImage parse tr = .resolved v) : ∃ u, v = RtVal.js u := by
  cases tr with
  | transportError e => simp [uploadImage] at h
  | response st body =>
    simp only [uploadImage] at h
    split at h
    · split at h
      · simp at h
      · split at h
        · simp at h
        · split at h
          · split at h
            · simp at h
            · split at h
              · simp at h
              · injection h with h2; exact ⟨_, h2.symm⟩
          · simp at h
    · simp at h

/-- `insert_image` never shows the upload-failure notice; its only
notice is the missing-view one. -/
theorem uploadFail_notin_insert (ws : Workspace) (s : String) :
    uploadFailNotice ∉ (insert_image ws s).2 := by
  cases hws : ws.activeLeaf with
  | none => simp [insert_image, hws, noViewNotice, uploadFailNotice]
  | some v =>
    cases v with
    | markdownView ed => simp [insert_image, hws]
    | otherView => simp [insert_image, hws, noViewNotice, uploadFailNotice]

/-- When the upload service is the real `uploadImage`, no run of
`paste_handle` ever shows the upload-failure notice: the branch
guarded by `image_url instanceof Error` would be its only source. -/
theorem paste_no_uploadFailNotice (parse : String → Except String JsVal)
    (net : ImageBlob → TransportResult) :
    ∀ (items : List ClipboardItem) (ws : Workspace),
      uploadFailNotice ∉
        (paste_handle (fun b => uploadImage parse (net b)) ws items).notices := by
  intro items
  induction items with
  | nil => intro ws; simp [paste_handle]
  | cons item rest ih =>
    intro ws
    by_cases himg : strStartsWith item.type "image"
    · simp only [paste_handle, himg, if_true]
      cases hu : uploadImage parse (net item.file) with
      | resolved v =>
        obtain ⟨u, rfl⟩ := uploadImage_resolved_is_js parse (net item.file) v hu
        simp only [RtVal.isErrorObj, Bool.false_eq_true, if_false, List.mem_append]
        push_neg
        exact ⟨uploadFail_notin_insert ws _, ih _⟩
      | rejected msg => simp
    · simp only [paste_handle, himg, Bool.false_eq_true, if_false]
      exact ih ws

/-- A rejected first upload aborts the `paste_handle` loop: the
rejection propagates out of the handler, with no notice shown and the
workspace untouched. -/
theorem paste_first_reject (upload : ImageBlob → UploadOutcome) (ws : Workspace)
    (item : ClipboardItem) (rest : List ClipboardItem) (msg : String)
    (himg : strStartsWith item.type "image" = true)
    (hrej : upload item.file = .rejected msg) :
    paste_handle upload ws (item :: rest) =
      { uploads := [item.file], prevented := true, ws := ws
      , notices := [], rejection := some msg } := by
  simp [paste_handle, himg, hrej]

/-! Claim theorems. -/

/-- C1: for every upload call where the HTTP response has status 200
and the body is valid JSON with a `status_code` field equal to 200 and
a nested `image.url` string field, `uploadImage` resolves to that URL
string. -/
theorem uploadImage_ok_resolves_url (parse : String → Except String JsVal)
    (body : String) (j img : JsVal) (url : String)
    (hparse : parse body = .ok j)
    (hsc : getProp j "status_code" = .ok (.num 200))
    (himg : getProp j "image" = .ok img)
    (hurl : getProp img "url" = .ok (.str url)) :
    uploadImage parse (.response 200 body) = .resolved (.js (.str url)) := by
  simp [uploadImage, hparse, hsc, himg, hurl, looseEq200]

/-- Witness for C1: the spec's mocked body
`{"status_code":200,"image":{"url":"https://x/y.png"}}` resolves to
`https://x/y.png`. -/
theorem uploadImage_ok_resolves_url_witness :
    uploadImage demoOkParse (.response 200 demoOkBody) =
      .resolved (.js (.str "https://x/y.png")) :=
  uploadImage_ok_resolves_url demoOkParse demoOkBody demoOkJson
    (.obj [("url", .str "https://x/y.png")]) "https://x/y.png" rfl rfl rfl rfl

/-- C2 counterexample: for the 200 body `{"status_code":200,"image":{}}`,
whose `image` object lacks the `url` field, `uploadImage` does not
yield a failure at all: it resolves with `undefined`. -/
theorem missing_url_resolves_undefined :
    uploadImage noUrlParse (.response 200 noUrlBody) = .resolved (.js .undefined) ∧
    (uploadImage noUrlParse (.response 200 noUrlBody)).isRejected = false :=
  ⟨rfl, rfl⟩

/-- C2 as amended: on HTTP status 200, a body that fails to parse — or
a thrown TypeError while reading its fields — yields a failure carrying
the thrown error (not the raw body); a parsed `status_code` field not
loosely equal to 200 yields a failure carrying the raw response body;
and a loosely-200 `status_code` with an `image` object lacking `url`
resolves with `undefined` rather than failing. -/
theorem uploadImage_200_failure_modes (parse : String → Except String JsVal)
    (body : String) :
    (∀ e, parse body = .error e →
      uploadImage parse (.response 200 body) =
        .rejected ("Error parsing response: " ++ e)) ∧
    (∀ j e, parse body = .ok j → getProp j "status_code" = .error e →
      uploadImage parse (.response 200 body) =
        .rejected ("Error parsing response: " ++ e)) ∧
    (∀ j sc, parse body = .ok j → getProp j "status_code" = .ok sc →
      looseEq200 sc = false →
      uploadImage parse (.response 200 body) =
        .rejected ("Upload failed: " ++ body)) ∧
    (∀ j sc img, parse body = .ok j → getProp j "status_code" = .ok sc →
      looseEq200 sc = true → getProp j "image" = .ok img →
      getProp img "url" = .ok .undefined →
      uploadImage parse (.response 200 body) = .resolved (.js .undefined)) := by
  refine ⟨?_, ?_, ?_, ?_⟩
  · intro e he; simp [uploadImage, he]
  · intro j e hj he; simp [uploadImage, hj, he]
  · intro j sc hj hsc hl; simp [uploadImage, hj, hsc, hl]
  · intro j sc img hj hsc hl himg hurl; simp [uploadImage, hj, hsc, hl, himg, hurl]

/-- Witness for the amended C2: an unparsable body rejects with the
SyntaxError; the body `null` rejects with the TypeError thrown by
`null.status_code`; the body `{"status_code":500}` rejects with the
raw body; the body `{"status_code":200,"image":{}}` resolves with
`undefined`. -/
theorem uploadImage_200_failure_modes_witness :
    uploadImage failParse (.response 200 "notjson") =
      .rejected ("Error parsing response: " ++ "SyntaxError: Unexpected token") ∧
    uploadImage nullParse (.response 200 "null") =
      .rejected ("Error parsing response: " ++ "TypeError: Cannot read properties of null") ∧
    uploadImage parse500 (.response 200 body500) =
      .rejected ("Upload failed: " ++ body500) ∧
    uploadImage noUrlParse (.response 200 noUrlBody) = .resolved (.js .undefined) := by
  refine ⟨?_, ?_, ?_, ?_⟩
  · exact (uploadImage_200_failure_modes failParse "notjson").1 _ rfl
  · exact (uploadImage_200_failure_modes nullParse "null").2.1 _ _ rfl rfl
  · exact (uploadImage_200_failure_modes parse500 body500).2.2.1 _ _ rfl rfl (by decide)
  · exact (uploadImage_200_failure_modes noUrlParse noUrlBody).2.2.2 _ _ _ rfl rfl
      (by decide) rfl rfl

/-- C3, evaluated at the failing input: one pasted PNG whose upload
fails at the transport level. The run performs the upload and calls
`preventDefault`, leaves the document unmodified — but shows no
notice: the rejection propagates out of `paste_handle` uncaught,
because `uploadImage` rejects instead of fulfilling with an `Error`
value as its declared type and the dead notification branch intend. -/
theorem paste_transport_failure_run :
    paste_handle transportFailUpload mdWorkspace [pngItem] =
      { uploads := [pngBlob], prevented := true, ws := mdWorkspace
      , notices := []
      , rejection := some "Request error: Error: connect ECONNREFUSED" } := rfl

/-- C4, evaluated at the spec's scenario: two image items and one text
item, the first upload succeeding and the second refused with HTTP
403. Exactly two uploads are issued, in clipboard order, none for the
text item, and exactly one Markdown image link is inserted — but no
failure notification is shown: the second upload's rejection
propagates out of `paste_handle` uncaught. -/
theorem paste_two_images_one_text_run :
    paste_handle scenarioUpload emptyMdWorkspace twoImagesOneText =
      { uploads := [pngBlob, pngBlobB], prevented := true
      , ws := { activeLeaf := some (.markdownView
                  { doc := "![](https://a/1.png)", cursor := 0 }) }
      , notices := []
      , rejection := some "Upload failed with status: 403" } := rfl

/-- C5: for every ImageBlob and API token, the constructed body is
exactly the spec's single `source` part (blob filename and mime type)
followed by the closing boundary marker; the Content-Type header
declares the fixed boundary; the X-API-Key header carries the token;
and the declared Content-Length equals the byte length of the full
payload, which is the blob's byte length plus the UTF-8 lengths of its
filename and mime type plus the fixed 164-byte boundary/header
overhead. -/
theorem upload_request_construction (apiToken : String) (b : ImageBlob) :
    payload b = specSinglePartBody boundary b.name b.type b.bytes ∧
    (requestHeaders apiToken b).contentType =
      "multipart/form-data; boundary=----WebKitFormBoundary7MA4YWxkTrZu0gW" ∧
    (requestHeaders apiToken b).xApiKey = apiToken ∧
    (requestHeaders apiToken b).contentLength = (payload b).length ∧
    (requestHeaders apiToken b).contentLength =
      b.bytes.length + (utf8Bytes b.name).length + (utf8Bytes b.type).length + 164 := by
  refine ⟨?_, rfl, rfl, rfl, ?_⟩
  · simp [payload, specSinglePartBody, partHeaderStr, closingStr, boundary,
      String.append_assoc]
  · show (payload b).length = _
    simp [payload, partHeaderStr, closingStr, boundary, String.append_assoc,
      utf8Bytes_append, List.length_append]
    have h1 : (utf8Bytes "------WebKitFormBoundary7MA4YWxkTrZu0gW\r\nContent-Disposition: form-data; name=\"source\"; filename=\"").length = 98 := by decide
    have h2 : (utf8Bytes "\"\r\nContent-Type: ").length = 17 := by decide
    have h3 : (utf8Bytes "\r\n\r\n").length = 4 := by decide
    have h4 : (utf8Bytes "\r\n------WebKitFormBoundary7MA4YWxkTrZu0gW--\r\n").length = 45 := by decide
    omega

/-- C6: for every upload call whose HTTP response status is not 200,
`uploadImage` rejects with a message carrying that status code,
regardless of the response body. -/
theorem uploadImage_non200_rejects_status (parse : String → Except String JsVal)
    (status : Nat) (body : String) (h : status ≠ 200) :
    uploadImage parse (.response status body) =
      .rejected ("Upload failed with status: " ++ toString status) := by
  simp [uploadImage, h]

/-- Witness for C6: a 403 response rejects with a message referencing
status code 403. -/
theorem uploadImage_non200_rejects_status_witness :
    uploadImage failParse (.response 403 "denied") =
      .rejected "Upload failed with status: 403" :=
  uploadImage_non200_rejects_status failParse 403 "denied" (by decide)

/-- C7: for every upload call where a transport-level error occurs,
`uploadImage` rejects with a message carrying the underlying error. -/
theorem uploadImage_transport_error_rejects (parse : String → Except String JsVal)
    (e : String) :
    uploadImage parse (.transportError e) = .rejected ("Request error: " ++ e) := rfl

/-- C8: whenever no active Markdown view exists, `insert_image` shows
the failure notice and performs no text mutation: the workspace is
returned unchanged. -/
theorem insert_image_no_active_view (ws : Workspace) (url : String)
    (h : ∀ ed, ws.activeLeaf ≠ some (.markdownView ed)) :
    insert_image ws url = (ws, [noViewNotice]) := by
  cases hws : ws.activeLeaf with
  | none => simp [insert_image, hws]
  | some v =>
    cases v with
    | markdownView ed => exact absurd hws (h ed)
    | otherView => simp [insert_image, hws]

/-- Witness for C8: a workspace with no active leaf. -/
theorem insert_image_no_active_view_witness :
    insert_image { activeLeaf := none } "https://x/y.png" =
      ({ activeLeaf := none }, [noViewNotice]) :=
  insert_image_no_active_view { activeLeaf := none } "https://x/y.png"
    (fun _ h => Option.noConfusion h)

/-- C9: `uploadImage` never fulfills with an `Error` value — every
fulfilled value is JSON-derived, so the `image_url instanceof Error`
branch of `paste_handle` is unreachable (its notice is never shown),
and a rejected upload of the first image item propagates out of
`paste_handle` as a rejection. -/
theorem uploadImage_never_fulfills_error (parse : String → Except String JsVal)
    (net : ImageBlob → TransportResult) :
    (∀ tr v, uploadImage parse tr = .resolved v → v.isErrorObj = false) ∧
    (∀ (ws : Workspace) (items : List ClipboardItem),
      uploadFailNotice ∉
        (paste_handle (fun b => uploadImage parse (net b)) ws items).notices) ∧
    (∀ (ws : Workspace) (item : ClipboardItem) (rest : List ClipboardItem)
        (msg : String),
      strStartsWith item.type "image" = true →
      uploadImage parse (net item.file) = .rejected msg →
      (paste_handle (fun b => uploadImage parse (net b)) ws (item :: rest)).rejection =
        some msg) := by
  refine ⟨?_, ?_, ?_⟩
  · intro tr v h
    obtain ⟨u, rfl⟩ := uploadImage_resolved_is_js parse tr v h
    rfl
  · intro ws items
    exact paste_no_uploadFailNotice parse net items ws
  · intro ws item rest msg himg hrej
    rw [paste_first_reject _ ws item rest msg himg hrej]

/-- Witness for C9: at the mocked success parse and a failing network,
a concrete fulfilled value is not an `Error`, a one-item paste run
shows no upload-failure notice, and its rejection carries the
transport error. -/
theorem uploadImage_never_fulfills_error_witness :
    RtVal.isErrorObj (.js (.str "https://x/y.png")) = false ∧
    uploadFailNotice ∉
      (paste_handle (fun b => uploadImage demoOkParse (boomNet b))
        mdWorkspace [pngItem]).notices ∧
    (paste_handle (fun b => uploadImage demoOkParse (boomNet b))
        mdWorkspace [pngItem]).rejection = some "Request error: Error: boom" := by
  have h := uploadImage_never_fulfills_error demoOkParse boomNet
  exact ⟨h.1 (.response 200 demoOkBody) (.js (.str "https://x/y.png")) rfl,
         h.2.1 mdWorkspace [pngItem],
         h.2.2 mdWorkspace pngItem [] "Request error: Error: boom" rfl rfl⟩

/-- C10: a 200 response whose valid-JSON body has the string `"200"`
(not the number 200) in `status_code` and a nested `image.url` field
is treated as success, because the comparison at src/main.ts line 69
uses loose equality. -/
theorem uploadImage_string_200_loose_equality (parse : String → Except String JsVal)
    (body : String) (j img : JsVal) (url : String)
    (hparse : parse body = .ok j)
    (hsc : getProp j "status_code" = .ok (.str "200"))
    (himg : getProp j "image" = .ok img)
    (hurl : getProp img "url" = .ok (.str url)) :
    uploadImage parse (.response 200 body) = .resolved (.js (.str url)) := by
  have hl : looseEq200 (.str "200") = true := by decide
  simp [uploadImage, hparse, hsc, himg, hurl, hl]

/-- Witness for C10: the body
`{"status_code":"200","image":{"url":"https://x/y.png"}}` resolves to
the URL. -/
theorem uploadImage_string_200_loose_equality_witness :
    uploadImage strStatusParse (.response 200 strStatusBody) =
      .resolved (.js (.str "https://x/y.png")) :=
  uploadImage_string_200_loose_equality strStatusParse strStatusBody strStatusJson
    (.obj [("url", .str "https://x/y.png")]) "https://x/y.png" rfl rfl rfl rfl

end Chevereto
